import Mathlib

/-!
Shallow embedding of `parallel_decoding.py` ("skeleton-of-thought" style
parallel decoding demo).

Modelling conventions:
* machine floats (`time.time()` differences, tokens-per-second) are modelled
  as exact rationals `ℚ`; the only float operation performed by the source is
  a subtraction and one division, and Python float division raises
  `ZeroDivisionError` exactly when the divisor is `0.0`, which we model with
  `Option`/`Except`;
* remote OpenAI calls are modelled by environment ("oracle") functions
  supplied as arguments: a synchronous call maps the request content to
  `Except Unit String` (`.error ()` models a raised exception, whose payload
  the source only prints), and the fan-out calls additionally receive the
  call's position, since the environment may answer each call differently;
* `asyncio.gather` returns results in submission order regardless of
  completion order, and propagates an exception if any coroutine raises;
  `gatherE` models exactly that interface;
* Python `str` operations used by the source (`split("\n")`,
  `strip("Skeleton:")`, `lstrip()`, `split(".")[0]`, `int(...)`,
  `"\n".join`, stable `sorted(key=...)`) are re-implemented below on
  `List Char` with their Python semantics (for ASCII data: `int()` grouping
  underscores and non-ASCII digits/whitespace are out of scope, none occur
  in the development);
* `print` calls are I/O with no effect on the computed values and are not
  modelled.
-/

/-- Enumeration `CallType` of the source, with its string values. -/
inductive CallType where
  | PARALLEL
  | NORMAL
deriving DecidableEq, Repr

/-- String value of a `CallType`, as in the Python enum. -/
def CallType.value : CallType → String
  | .PARALLEL => "parallel"
  | .NORMAL => "normal"

/-- Dataclass `Result` of the source. After `__post_init__` runs,
`tokens_per_second` always holds the recomputed quotient, so the field is
total here; construction happens through `mkResult` below. -/
structure Result where
  prompt : String
  model_response : String
  model : String
  time_seconds : ℚ
  openai_call_type : CallType
  tokens_per_second : ℚ
deriving DecidableEq, Repr

/-- Method `Result.calculate_tokens_per_second`: token count of
`model_response` under the model's tokenizer, divided by `time_seconds`.
The token counter (`tiktoken`) is an external collaborator, passed in as
`tc : model → text → count`. Python float division raises on a zero divisor,
modelled by `none`. -/
def calculate_tokens_per_second (tc : String → String → Nat)
    (model model_response : String) (time_seconds : ℚ) : Option ℚ :=
  if time_seconds = 0 then none
  else some ((tc model model_response : ℚ) / time_seconds)

/-- Construction of a `Result`: the dataclass `__init__` accepts an optional
`tokens_per_second` argument, then `__post_init__` unconditionally overwrites
the field with `calculate_tokens_per_second`, so the supplied value is
discarded. `none` models the `ZeroDivisionError` raised during construction
when `time_seconds = 0`. -/
def mkResult (tc : String → String → Nat) (prompt model_response model : String)
    (time_seconds : ℚ) (openai_call_type : CallType)
    (tokens_per_second : Option ℚ) : Option Result :=
  match calculate_tokens_per_second tc model model_response time_seconds with
  | none => none
  | some tps =>
    some ⟨prompt, model_response, model, time_seconds, openai_call_type, tps⟩

/-- Part of the skeleton prompt template before the `\x7bprompt\x7d` slot
(verbatim from the source's triple-quoted string, indentation included). -/
def skeletonTemplateA : String :=
  "\n    You’re an organizer responsible for only giving the skeleton (not the full content) for answering the question.\n    Provide the skeleton in a list of points (numbered 1., 2., 3., etc.) to answer the question. Instead of writing a full\n    sentence, each skeleton point should be very short with only 3∼5 words.\n    Question:\n    What are the typical types of Chinese dishes?\n    Skeleton:\n    1. Dumplings.\n    2. Noodles.\n    3. Dim Sum.\n    4. Hot Pot.\n    5. Wonton.\n    6. Ma Po Tofu.\n    7. Char Siu.\n    8. Fried Rice.\n    Question:\n    What are some practical tips for individuals to reduce their carbon emissions?\n    Skeleton:\n    1. Energy conservation.\n    2. Efficient transportation.\n    3. Home energy efficiency.\n    4. Reduce water consumption.\n    5. Sustainable diet.\n    6. Sustainable travel.\n    Now, please provide the skeleton for the following question.\n    "

/-- Function `get_skeleton_template`: the skeleton template with the question
substituted (Python `str.format`). -/
def get_skeleton_template (prompt : String) : String :=
  skeletonTemplateA ++ prompt ++ "\n    "

/-- Part of the point-expanding template before the `\x7bprompt\x7d` slot. -/
def pointTemplateA : String :=
  "\n    You’re responsible for continuing the writing of one and only one point in the overall answer to the following\n    question.\n    "

/-- Part of the point-expanding template between the `\x7bprompt\x7d` and
`\x7bskeleton\x7d` slots. -/
def pointTemplateB : String :=
  "\n    The outline of the full answer is:\n    "

/-- Part of the point-expanding template between the `\x7bskeleton\x7d` and
`\x7bsubtask\x7d` slots. -/
def pointTemplateC : String :=
  "\n\n    Continue the above and only continue the writing of point "

/-- Part of the point-expanding template after the `\x7bsubtask\x7d` slot. -/
def pointTemplateD : String :=
  ". Expand on it in a single sentence and do not continue with other points!\n    "

/-- Function `get_point_expanding_template`: the expansion request for one
subtask, built only from the question, the `skeleton` string handed in by the
caller, and this subtask's own line (Python `str.format`). -/
def get_point_expanding_template (prompt skeleton subtask : String) : String :=
  pointTemplateA ++ prompt ++ pointTemplateB ++ skeleton ++ pointTemplateC
    ++ subtask ++ pointTemplateD

/-- Python `str.strip(chars)`: removes from both ends every character that
belongs to the given character set (not the prefix/suffix string). -/
def pyStripChars (chars : List Char) (s : String) : String :=
  ⟨((s.data.dropWhile (chars.contains ·)).reverse.dropWhile
      (chars.contains ·)).reverse⟩

/-- Python `str.lstrip()`: removes leading whitespace. -/
def pyLstripWs (s : String) : String :=
  ⟨s.data.dropWhile Char.isWhitespace⟩

/-- Splitting a character list at every `'\n'` (Python `str.split("\n")`):
empty segments are kept, and the result is never empty. -/
def splitNl : List Char → List (List Char)
  | [] => [[]]
  | c :: cs =>
    match splitNl cs with
    | [] => [[]]
    | l :: ls => if c = '\n' then [] :: l :: ls else (c :: l) :: ls

/-- Lines 160–161 of the source: `[x for x in s]` followed by `"".join`
is the identity, so the subtask list is `s.split("\n")`. -/
def pySplitLines (s : String) : List String :=
  (splitNl s.data).map fun l => ⟨l⟩

/-- Python `s.split(".")[0]`: the part of the string before the first `'.'`
(the whole string when there is none). -/
def beforeDot (s : String) : String :=
  ⟨s.data.takeWhile (· ≠ '.')⟩

/-- Digit-string reading for `int()`: all characters must be decimal digits
and there must be at least one. -/
def digitsToNat : List Char → Option Nat
  | [] => none
  | ds =>
    if ds.all Char.isDigit then
      some (ds.foldl (fun a c => a * 10 + (c.toNat - 48)) 0)
    else none

/-- Python `int(s)` for ASCII strings: surrounding whitespace is ignored, an
optional single sign precedes the digits, anything else raises `ValueError`
(modelled by `none`). -/
def pyParseInt (s : String) : Option Int :=
  let t := ((s.data.dropWhile Char.isWhitespace).reverse.dropWhile
      Char.isWhitespace).reverse
  match t with
  | '+' :: ds => (digitsToNat ds).map Int.ofNat
  | '-' :: ds => (digitsToNat ds).map fun n => -(n : Int)
  | ds => (digitsToNat ds).map Int.ofNat

/-- Character set of the literal `"Skeleton:"`, as used by
`s.strip("Skeleton:")` on line 169 of the source. -/
def stripSet : List Char := "Skeleton:".data

/-- Line 169 of the source: `s.strip("Skeleton:").lstrip()` applied to one
expansion response. -/
def cleanResponse (s : String) : String :=
  pyLstripWs (pyStripChars stripSet s)

/-- Sort key of line 170 of the source: `int(s.split(".")[0])`, `none` when
`int` raises `ValueError`. -/
def sortKey (s : String) : Option Int :=
  pyParseInt (beforeDot s)

/-- Insertion into a key-sorted list, after all strictly smaller keys and
before equal ones, preserving Python `sorted` stability. -/
def insertByKey (a : Int × String) : List (Int × String) → List (Int × String)
  | [] => [a]
  | b :: bs => if b.1 < a.1 then b :: insertByKey a bs else a :: b :: bs

/-- Stable sort by integer key (Python `sorted(xs, key=...)`). -/
def sortByKey : List (Int × String) → List (Int × String)
  | [] => []
  | x :: xs => insertByKey x (sortByKey xs)

/-- Left-to-right computation of the sort keys; Python `sorted` evaluates the
key function on every element and the first `ValueError` raises (`none`). -/
def keyed : List String → Option (List (Int × String))
  | [] => some []
  | s :: rest =>
    match sortKey s with
    | none => none
    | some k => (keyed rest).map ((k, s) :: ·)

/-- Python `"\n".join(xs)`. -/
def joinNl : List String → String
  | [] => ""
  | [s] => s
  | s :: rest => s ++ "\n" ++ joinNl rest

/-- Lines 169–171 of the source: clean every response, sort the cleaned
responses by the integer prefix of the text before the first `'.'` (a
`ValueError` from `int` yields `none`), and join with newlines. -/
def mergeResponses (rs : List String) : Option String :=
  match keyed (rs.map cleanResponse) with
  | none => none
  | some ks => some (joinNl ((sortByKey ks).map Prod.snd))

/-- Model of `asyncio.gather` on already-resolved outcomes: results are
returned in submission order whatever the completion order; if any coroutine
raised, the exception propagates. -/
def gatherE : List (Except Unit String) → Except Unit (List String)
  | [] => .ok []
  | .error e :: _ => .error e
  | .ok a :: rest => (gatherE rest).map (a :: ·)

/-- Pairing of list elements with their positions starting at `i`. -/
def idxFrom (i : Nat) : List α → List (Nat × α)
  | [] => []
  | a :: as => (i, a) :: idxFrom (i + 1) as

/-- Expansion requests built by `parallel_coroutine` (line 114): one request
per subtask, each from the question, the caller-supplied `skeleton` string
and that subtask alone. -/
def expansionRequests (prompt skeleton : String) (subtask : List String) :
    List String :=
  subtask.map fun st => get_point_expanding_template prompt skeleton st

/-- Function `parallel_coroutine`: build one expansion request per subtask and
gather the asynchronous calls. The environment `respond_async` answers the
call at a given position with a given request content. -/
def parallel_coroutine (respond_async : Nat → String → Except Unit String)
    (subtask : List String) (prompt skeleton : String) :
    Except Unit (List String) :=
  gatherE ((idxFrom 0 (expansionRequests prompt skeleton subtask)).map
    fun p => respond_async p.1 p.2)

/-- Function `run_parallel`. The skeleton request is sent synchronously; any
exception inside the `try` block (remote failure, gather failure, `ValueError`
from the sort key) is caught and the function returns `None` (`.ok none`).
The `Result` construction sits after the `try` block, so a
`ZeroDivisionError` there propagates out (`.error ()`). `tStart`/`tEnd` are
the two `time.time()` readings. -/
def run_parallel (tc : String → String → Nat)
    (respond_sync : String → Except Unit String)
    (respond_async : Nat → String → Except Unit String)
    (tStart tEnd : ℚ) (prompt model : String) : Except Unit (Option Result) :=
  match respond_sync (get_skeleton_template prompt) with
  | .error _ => .ok none
  | .ok skeleton_response =>
    match parallel_coroutine respond_async (pySplitLines skeleton_response)
        prompt (get_skeleton_template prompt) with
    | .error _ => .ok none
    | .ok responses =>
      match mergeResponses responses with
      | none => .ok none
      | some parallel_response =>
        match mkResult tc prompt parallel_response model (tEnd - tStart)
            CallType.PARALLEL none with
        | none => .error ()
        | some r => .ok (some r)

/-- Function `run_normal`: one synchronous call with the raw prompt; a remote
failure is caught and yields `None`; the `Result` construction sits after the
`try` block, so a `ZeroDivisionError` there propagates out (`.error ()`). -/
def run_normal (tc : String → String → Nat)
    (respond_sync : String → Except Unit String)
    (tStart tEnd : ℚ) (prompt model : String) : Except Unit (Option Result) :=
  match respond_sync prompt with
  | .error _ => .ok none
  | .ok model_response =>
    match mkResult tc prompt model_response model (tEnd - tStart)
        CallType.NORMAL none with
    | none => .error ()
    | some r => .ok (some r)

/-- Environment for one iteration of `main`: the remote answers and the two
clock readings for the parallel run, and the same for the normal run. -/
structure IterEnv where
  parRespondSync : String → Except Unit String
  parRespondAsync : Nat → String → Except Unit String
  parStart : ℚ
  parEnd : ℚ
  norRespondSync : String → Except Unit String
  norStart : ℚ
  norEnd : ℚ

/-- Function `main`: for each iteration, append the parallel run's return
value and then the normal run's return value to `results` (the source appends
whatever the run functions return, including `None`); an uncaught exception
in either run propagates and aborts the whole batch. -/
def main (tc : String → String → Nat) (prompt model : String) :
    List IterEnv → Except Unit (List (Option Result))
  | [] => .ok []
  | env :: rest => do
    let p ← run_parallel tc env.parRespondSync env.parRespondAsync
      env.parStart env.parEnd prompt model
    let n ← run_normal tc env.norRespondSync env.norStart env.norEnd
      prompt model
    let tail ← main tc prompt model rest
    pure (p :: n :: tail)

/-- Merged response text of a completed parallel run, when there is one. -/
def resultText : Except Unit (Option Result) → Option String
  | .ok (some r) => some r.model_response
  | _ => none

/-- Boolean test that `pat` occurs at the head of `l`. -/
def leadMatch : List Char → List Char → Bool
  | [], _ => true
  | _ :: _, [] => false
  | a :: as, b :: bs => a == b && leadMatch as bs

/-- Boolean substring test on character lists. -/
def containsSub (hay needle : List Char) : Bool :=
  match hay with
  | [] => needle.isEmpty
  | _ :: t => leadMatch needle hay || containsSub t needle

/-- Boolean substring test on strings. -/
def strContains (hay needle : String) : Bool :=
  containsSub hay.data needle.data

/-- Boolean test that the first character of `s` (when any) is outside the
strip character set and not whitespace, so cleaning leaves the front alone. -/
def headClean (s : String) : Bool :=
  match s.data.head? with
  | none => true
  | some c => !(stripSet.contains c) && !c.isWhitespace

/-- Boolean test that the last character of `s` (when any) is outside the
strip character set, so cleaning leaves the back alone. -/
def lastClean (s : String) : Bool :=
  match s.data.getLast? with
  | none => true
  | some c => !(stripSet.contains c)

theorem gatherE_error_of_mem (l : List (Except Unit String))
    (h : Except.error () ∈ l) : gatherE l = .error () := by
  induction l with
  | nil => cases h
  | cons x rest ih =>
    rcases List.mem_cons.mp h with h1 | h1
    · cases h1.symm; rfl
    · cases x with
      | error e => cases e; rfl
      | ok a => simp [gatherE, ih h1, Except.map]

theorem keyed_none_of_mem (l : List String) (s : String) (hs : s ∈ l)
    (hk : sortKey s = none) : keyed l = none := by
  induction l with
  | nil => cases hs
  | cons x rest ih =>
    rcases List.mem_cons.mp hs with h1 | h1
    · subst h1; simp [keyed, hk]
    · cases hx : sortKey x with
      | none => simp [keyed, hx]
      | some k => simp [keyed, hx, ih h1]

theorem mergeResponses_none_of_bad (rs : List String) (r : String)
    (hr : r ∈ rs) (hk : sortKey (cleanResponse r) = none) :
    mergeResponses rs = none := by
  unfold mergeResponses
  rw [keyed_none_of_mem (rs.map cleanResponse) (cleanResponse r)
    (List.mem_map_of_mem cleanResponse hr) hk]

theorem splitNl_ne_nil (l : List Char) : splitNl l ≠ [] := by
  induction l with
  | nil => simp [splitNl]
  | cons c cs ih =>
    unfold splitNl
    cases h : splitNl cs with
    | nil => simp
    | cons a as => dsimp; split <;> simp

theorem splitNl_replicate (n : Nat) :
    splitNl (List.replicate n '\n') = List.replicate (n + 1) [] := by
  induction n with
  | zero => rfl
  | succ m ih =>
    rw [List.replicate_succ, List.replicate_succ]
    unfold splitNl
    rw [ih, List.replicate_succ]
    simp

theorem dropWhile_id_of_head (p : Char → Bool) (l : List Char)
    (h : ∀ c, l.head? = some c → p c = false) : l.dropWhile p = l := by
  cases l with
  | nil => rfl
  | cons c cs => simp [List.dropWhile, h c rfl]

theorem ends_decomp (P W : Char → Bool) (l : List Char) :
    ∃ pre suf : List Char,
      l = pre ++ (((l.dropWhile P).reverse.dropWhile P).reverse.dropWhile W)
        ++ suf := by
  refine ⟨l.takeWhile P
      ++ ((l.dropWhile P).reverse.dropWhile P).reverse.takeWhile W,
    ((l.dropWhile P).reverse.takeWhile P).reverse, ?_⟩
  have h1 : l.takeWhile P ++ l.dropWhile P = l :=
    @List.takeWhile_append_dropWhile _ P l
  have h2 : (l.dropWhile P).reverse.takeWhile P
      ++ (l.dropWhile P).reverse.dropWhile P = (l.dropWhile P).reverse :=
    @List.takeWhile_append_dropWhile _ P (l.dropWhile P).reverse
  have h3 : ((l.dropWhile P).reverse.dropWhile P).reverse.takeWhile W
      ++ ((l.dropWhile P).reverse.dropWhile P).reverse.dropWhile W
      = ((l.dropWhile P).reverse.dropWhile P).reverse :=
    @List.takeWhile_append_dropWhile _ W
      ((l.dropWhile P).reverse.dropWhile P).reverse
  have h2' : l.dropWhile P = ((l.dropWhile P).reverse.dropWhile P).reverse
      ++ ((l.dropWhile P).reverse.takeWhile P).reverse := by
    have h4 := congrArg List.reverse h2
    simp only [List.reverse_append, List.reverse_reverse] at h4
    exact h4.symm
  calc l = l.takeWhile P ++ l.dropWhile P := h1.symm
    _ = l.takeWhile P ++ (((l.dropWhile P).reverse.dropWhile P).reverse
        ++ ((l.dropWhile P).reverse.takeWhile P).reverse) := by rw [← h2']
    _ = l.takeWhile P
        ++ ((((l.dropWhile P).reverse.dropWhile P).reverse.takeWhile W
          ++ ((l.dropWhile P).reverse.dropWhile P).reverse.dropWhile W)
        ++ ((l.dropWhile P).reverse.takeWhile P).reverse) := by rw [h3]
    _ = (l.takeWhile P
        ++ ((l.dropWhile P).reverse.dropWhile P).reverse.takeWhile W)
        ++ (((l.dropWhile P).reverse.dropWhile P).reverse.dropWhile W)
        ++ ((l.dropWhile P).reverse.takeWhile P).reverse := by
      simp [List.append_assoc]

theorem clean3_id (P W : Char → Bool) (l : List Char)
    (hh : ∀ c, l.head? = some c → P c = false ∧ W c = false)
    (hl : ∀ c, l.getLast? = some c → P c = false) :
    ((l.dropWhile P).reverse.dropWhile P).reverse.dropWhile W = l := by
  have hd : l.dropWhile P = l :=
    dropWhile_id_of_head P l (fun c hc => (hh c hc).1)
  rw [hd]
  have hr : l.reverse.dropWhile P = l.reverse := by
    apply dropWhile_id_of_head
    intro c hc
    rw [List.head?_reverse] at hc
    exact hl c hc
  rw [hr, List.reverse_reverse]
  exact dropWhile_id_of_head W l (fun c hc => (hh c hc).2)

attribute [local semireducible] Rat.add Rat.sub Rat.mul Rat.inv

/-- C1: at the failing input, the merged parallel answer follows the integer
labels echoed inside the model responses, not the outline (ordinal) order:
the skeleton lines are labelled `2.` then `1.`, each expansion echoes its own
line's label, and the merged answer comes out label-sorted
(`"1. A-exp\n2. B-exp"`), the reverse of outline order
(`"2. B-exp\n1. A-exp"`), because line 170 of the source sorts the responses
by `int(s.split(".")[0])`. -/
theorem c1_merged_output_follows_model_labels :
    resultText (run_parallel (fun _ s => s.length)
      (fun _ => Except.ok "2. Beta\n1. Alpha")
      (fun i _ => Except.ok (if i = 0 then "2. B-exp" else "1. A-exp"))
      0 1 "Q" "m")
      = some "1. A-exp\n2. B-exp" := by rfl

/-- C2 counterexample: an input consisting only of blank lines does not parse
to an empty sequence — `"\n\n".split("\n")` keeps the empty lines and yields
three empty subtasks. -/
theorem c2_blank_lines_not_empty :
    pySplitLines "\n\n" = ["", "", ""] ∧
    (pySplitLines "\n\n").length = 3 := by
  exact ⟨by rfl, by rfl⟩

/-- C2 (amended): the outline splitter splits on `'\n'` and keeps empty
lines, so an input of `n` newlines parses to `n + 1` empty subtasks and the
parse result is never the empty list; dispatching an empty call sequence
still returns an empty sequence, and merging an empty sequence returns the
empty string without error. -/
theorem c2_split_keeps_empty_lines :
    (∀ n : Nat, pySplitLines ⟨List.replicate n '\n'⟩
      = List.replicate (n + 1) "") ∧
    (∀ s : String, 0 < (pySplitLines s).length) ∧
    gatherE [] = Except.ok [] ∧
    mergeResponses [] = some "" := by
  refine ⟨?_, ?_, rfl, rfl⟩
  · intro n
    unfold pySplitLines
    rw [show (⟨List.replicate n '\n'⟩ : String).data
      = List.replicate n '\n' from rfl]
    rw [splitNl_replicate, List.map_replicate]
  · intro s
    unfold pySplitLines
    rw [List.length_map]
    exact List.length_pos.mpr (splitNl_ne_nil s.data)

/-- C3 counterexample: with 5 subtasks where only the expansion call of
ordinal 2 fails, the run returns `None` — the whole parallel run is
abandoned, the four surviving expansions are discarded, and no value carrying
a failed-ordinal set (no `PartialFailure`) exists anywhere in the program. -/
theorem c3_partial_failure_aborts_run_cex :
    run_parallel (fun _ s => s.length)
      (fun _ => Except.ok "1. a\n2. b\n3. c\n4. d\n5. e")
      (fun i _ => if i = 2 then Except.error () else Except.ok "ok")
      0 1 "Q" "m" = Except.ok none := by rfl

/-- C3 (amended): if any expansion call raises, `asyncio.gather` propagates
the exception, so the whole parallel run is aborted: the merge never runs,
every expansion result (survivors included) is discarded, and the run
produces no `Result` — there is no `PartialFailure` value with a set of
failed ordinals. -/
theorem c3_any_expansion_failure_aborts_run :
    (∀ (async : Nat → String → Except Unit String) (subtask : List String)
      (prompt skeleton : String) (p : Nat × String),
      p ∈ idxFrom 0 (expansionRequests prompt skeleton subtask) →
      async p.1 p.2 = Except.error () →
      parallel_coroutine async subtask prompt skeleton = Except.error ()) ∧
    (∀ (tc : String → String → Nat) (sync : String → Except Unit String)
      (async : Nat → String → Except Unit String) (t1 t2 : ℚ)
      (prompt model sr : String),
      sync (get_skeleton_template prompt) = Except.ok sr →
      parallel_coroutine async (pySplitLines sr) prompt
        (get_skeleton_template prompt) = Except.error () →
      run_parallel tc sync async t1 t2 prompt model = Except.ok none) := by
  constructor
  · intro async subtask prompt skeleton p hp hfail
    unfold parallel_coroutine
    apply gatherE_error_of_mem
    exact List.mem_map.mpr ⟨p, hp, hfail⟩
  · intro tc sync async t1 t2 prompt model sr hs hg
    simp only [run_parallel, hs, hg]

/-- C3 witness: a single failing expansion call makes the gather fail and the
run return `None`. -/
theorem c3_abort_witness :
    parallel_coroutine (fun _ _ => Except.error ()) ["1. a"] "Q"
      (get_skeleton_template "Q") = Except.error () ∧
    run_parallel (fun _ s => s.length) (fun _ => Except.ok "1. a")
      (fun _ _ => Except.error ()) 0 1 "Q" "m" = Except.ok none := by
  have h1 : parallel_coroutine (fun _ _ => Except.error ()) ["1. a"] "Q"
      (get_skeleton_template "Q") = Except.error () :=
    c3_any_expansion_failure_aborts_run.1 (fun _ _ => Except.error ())
      ["1. a"] "Q" (get_skeleton_template "Q")
      (0, get_point_expanding_template "Q" (get_skeleton_template "Q") "1. a")
      (by simp [idxFrom, expansionRequests]) rfl
  refine ⟨h1, c3_any_expansion_failure_aborts_run.2 _ _ _ 0 1 "Q" "m"
    "1. a" rfl ?_⟩
  rw [show pySplitLines "1. a" = ["1. a"] from rfl]
  exact h1

/-- C4: at the failing input (prompt `"Q"`, model-returned skeleton
`"1. Alpha\n2. Beta"`), each of the two expansion requests contains the
original prompt, its own subtask line, and the skeleton *instruction
template* `get_skeleton_template "Q"` (few-shot examples included) — but not
the skeleton text the model returned: `run_parallel` passes the variable
`skeleton` (the request template built on line 154) into
`parallel_coroutine`, never `skeleton_response`. -/
theorem c4_expansion_request_contents :
    (expansionRequests "Q" (get_skeleton_template "Q")
        (pySplitLines "1. Alpha\n2. Beta")).length = 2 ∧
    (∀ r ∈ expansionRequests "Q" (get_skeleton_template "Q")
        (pySplitLines "1. Alpha\n2. Beta"),
      strContains r "Q" = true ∧
      strContains r (get_skeleton_template "Q") = true ∧
      strContains r "1. Alpha\n2. Beta" = false) ∧
    strContains ((expansionRequests "Q" (get_skeleton_template "Q")
        (pySplitLines "1. Alpha\n2. Beta")).headD "") "1. Alpha" = true := by
  set_option maxRecDepth 40000 in decide

/-- C5 counterexample: in an iteration whose normal call raises while the
parallel run succeeds, the batch for that iteration has two entries and the
failed run's entry is `None` — something is appended to the batch for the
aborted run, not nothing. -/
theorem c5_failed_run_appends_none :
    (main (fun _ s => s.length) "Q" "m"
      [⟨fun _ => Except.ok "1. A", fun _ _ => Except.ok "1. A-x", 0, 1,
        fun _ => Except.error (), 0, 1⟩]).map (fun l => l.map Option.isSome)
      = Except.ok [true, false] := by rfl

/-- C5 (amended): a raised exception on the skeleton call or the normal call
is caught (logged, not re-raised), the aborted run produces no `Result`, and
the orchestrator appends `None` to the batch in its place rather than adding
nothing; the iteration's other run and all subsequent iterations are
unaffected and the batch continues. -/
theorem c5_failed_call_continues :
    (∀ (tc : String → String → Nat) (sync : String → Except Unit String)
      (async : Nat → String → Except Unit String) (t1 t2 : ℚ)
      (prompt model : String),
      sync (get_skeleton_template prompt) = Except.error () →
      run_parallel tc sync async t1 t2 prompt model = Except.ok none) ∧
    (∀ (tc : String → String → Nat) (prompt model : String) (env : IterEnv)
      (rest : List IterEnv) (o : Option Result) (tl : List (Option Result)),
      env.norRespondSync prompt = Except.error () →
      run_parallel tc env.parRespondSync env.parRespondAsync env.parStart
        env.parEnd prompt model = Except.ok o →
      main tc prompt model rest = Except.ok tl →
      main tc prompt model (env :: rest) = Except.ok (o :: none :: tl)) := by
  constructor
  · intro tc sync async t1 t2 prompt model h
    simp only [run_parallel, h]
  · intro tc prompt model env rest o tl hn hp hrest
    have hnorm : run_normal tc env.norRespondSync env.norStart env.norEnd
        prompt model = Except.ok none := by
      unfold run_normal
      rw [hn]
    simp [main, hp, hnorm, hrest]
    rfl

/-- C5 witness: a failing skeleton call yields a `None` run, and one
iteration with a failing normal call appends `None` after the parallel
outcome. -/
theorem c5_continues_witness :
    run_parallel (fun _ s => s.length) (fun _ => Except.error ())
      (fun _ _ => Except.ok "x") 0 1 "Q" "m" = Except.ok none ∧
    main (fun _ s => s.length) "Q" "m"
      [⟨fun _ => Except.ok "1. A", fun _ _ => Except.ok "1. A-x", 0, 1,
        fun _ => Except.error (), 0, 1⟩]
      = Except.ok [some ⟨"Q", "1. A-x", "m", 1, CallType.PARALLEL, 6⟩, none] := by
  refine ⟨c5_failed_call_continues.1 (fun _ s => s.length)
    (fun _ => Except.error ()) (fun _ _ => Except.ok "x") 0 1 "Q" "m" rfl, ?_⟩
  exact c5_failed_call_continues.2 (fun _ s => s.length) "Q" "m"
    ⟨fun _ => Except.ok "1. A", fun _ _ => Except.ok "1. A-x", 0, 1,
      fun _ => Except.error (), 0, 1⟩ []
    (some ⟨"Q", "1. A-x", "m", 1, CallType.PARALLEL, 6⟩) [] rfl (by rfl) rfl

/-- C6: `tokens_per_second` of every constructed `Result` equals the token
count of the response under the (stub) counter divided by the elapsed
seconds, whatever value the caller supplied for the field. -/
theorem c6_tokens_per_second_derived (tc : String → String → Nat)
    (p resp m : String) (t : ℚ) (ct : CallType) (tps0 : Option ℚ)
    (r : Result) (h : mkResult tc p resp m t ct tps0 = some r) :
    r.tokens_per_second = (tc m resp : ℚ) / t := by
  unfold mkResult calculate_tokens_per_second at h
  by_cases ht : t = 0
  · simp [ht] at h
  · simp [ht] at h
    subst h
    rfl

/-- C6 witness: a stub counter returning 100 tokens with 2.0 elapsed seconds
gives exactly 50.0 tokens per second. -/
theorem c6_derived_witness :
    mkResult (fun _ _ => 100) "q" "y" "m" 2 CallType.PARALLEL none
      = some ⟨"q", "y", "m", 2, CallType.PARALLEL, 50⟩ ∧
    (⟨"q", "y", "m", 2, CallType.PARALLEL, 50⟩ : Result).tokens_per_second
      = ((100 : Nat) : ℚ) / 2 := by
  refine ⟨by decide, ?_⟩
  exact c6_tokens_per_second_derived (fun _ _ => 100) "q" "y" "m" 2
    CallType.PARALLEL none ⟨"q", "y", "m", 2, CallType.PARALLEL, 50⟩
    (by decide)

/-- C7 counterexample: no caller guards the measured duration — with a
successful remote call and two equal clock readings, `run_normal` reaches the
tokens-per-second division with a zero interval, and the resulting
`ZeroDivisionError` propagates uncaught out of the run (the `Result`
construction sits after the `try` block), so the division is reachable. -/
theorem c7_zero_duration_reaches_division :
    run_normal (fun _ _ => 3) (fun _ => Except.ok "ok") 5 5 "q" "m"
      = Except.error () := by rfl

/-- C7 (amended): neither `run_normal` nor any other caller rejects or guards
a zero-duration measurement: `Result` construction divides by `time_seconds`
unconditionally (construction with a zero duration raises), and a normal run
whose two clock readings coincide always ends in an uncaught
`ZeroDivisionError` rather than an Outcome. -/
theorem c7_no_guard_on_duration :
    (∀ (tc : String → String → Nat) (p resp m : String) (ct : CallType)
      (tps0 : Option ℚ), mkResult tc p resp m 0 ct tps0 = none) ∧
    (∀ (tc : String → String → Nat) (sync : String → Except Unit String)
      (t : ℚ) (prompt model resp : String), sync prompt = Except.ok resp →
      run_normal tc sync t t prompt model = Except.error ()) := by
  constructor
  · intro tc p resp m ct tps0
    rfl
  · intro tc sync t prompt model resp h
    unfold run_normal
    rw [h]
    simp [mkResult, calculate_tokens_per_second, sub_self]

/-- C7 witness: concrete zero-duration instances of both clauses. -/
theorem c7_no_guard_witness :
    mkResult (fun _ _ => 7) "p" "resp" "m" 0 CallType.NORMAL none = none ∧
    run_normal (fun _ _ => 7) (fun _ => Except.ok "resp") 0 0 "p" "m"
      = Except.error () := by
  refine ⟨c7_no_guard_on_duration.1 (fun _ _ => 7) "p" "resp" "m"
    CallType.NORMAL none, ?_⟩
  exact c7_no_guard_on_duration.2 (fun _ _ => 7) (fun _ => Except.ok "resp")
    0 "p" "m" "resp" rfl

/-- C8 counterexample: the merge mangles ordinary trailing text that is no
labeling artifact — `"1. Use less salt".strip("Skeleton:")` removes the
trailing characters `t`, `l` (members of the character set of
`"Skeleton:"`), so the merged output is `"1. Use less sa"`, not the
unchanged expansion text. -/
theorem c8_strip_mangles_ordinary_text :
    mergeResponses ["1. Use less salt"] = some "1. Use less sa" ∧
    cleanResponse "1. Use less salt" = "1. Use less sa" := by
  exact ⟨by rfl, by rfl⟩

/-- C8 (amended): for all-successful results the merge cleans each response
by removing, from both ends, characters belonging to the character set of
`"Skeleton:"` (Python `str.strip` semantics) and then leading whitespace —
cleaning only ever removes characters at the two ends (the cleaned text is a
contiguous segment of the original), a response whose end characters are
outside that set is preserved unchanged — and joins the cleaned texts with
newlines in ascending order of the integer label parsed before the first
`'.'` of each cleaned text. -/
theorem c8_strip_charset_semantics :
    (∀ s : String, ∃ pre suf : List Char,
      s.data = pre ++ (cleanResponse s).data ++ suf) ∧
    (∀ s : String, headClean s = true → lastClean s = true →
      cleanResponse s = s) ∧
    (∀ (rs : List String) (ks : List (Int × String)),
      keyed (rs.map cleanResponse) = some ks →
      mergeResponses rs = some (joinNl ((sortByKey ks).map Prod.snd))) := by
  refine ⟨?_, ?_, ?_⟩
  · intro s
    exact ends_decomp (stripSet.contains ·) Char.isWhitespace s.data
  · intro s h1 h2
    obtain ⟨d⟩ := s
    unfold headClean at h1
    unfold lastClean at h2
    show String.mk (((d.dropWhile (stripSet.contains ·)).reverse.dropWhile
      (stripSet.contains ·)).reverse.dropWhile Char.isWhitespace) = ⟨d⟩
    refine congrArg String.mk (clean3_id _ _ d ?_ ?_)
    · intro c hc
      rw [show (⟨d⟩ : String).data = d from rfl] at h1
      rw [hc] at h1
      simp only [Bool.and_eq_true, Bool.not_eq_true'] at h1
      exact h1
    · intro c hc
      rw [show (⟨d⟩ : String).data = d from rfl] at h2
      rw [hc] at h2
      simp only [Bool.not_eq_true'] at h2
      exact h2
  · intro rs ks h
    unfold mergeResponses
    rw [h]

/-- C8 witness: a response with clean ends is preserved, and a concrete
all-successful merge follows the label-sorted join. -/
theorem c8_charset_witness :
    headClean "1. Ab" = true ∧ lastClean "1. Ab" = true ∧
    cleanResponse "1. Ab" = "1. Ab" ∧
    keyed (["2. b", "1. a"].map cleanResponse)
      = some [(2, "2. b"), (1, "1. a")] ∧
    mergeResponses ["2. b", "1. a"]
      = some (joinNl ((sortByKey [(2, "2. b"), (1, "1. a")]).map Prod.snd)) := by
  refine ⟨by rfl, by rfl, ?_, by rfl, ?_⟩
  · exact c8_strip_charset_semantics.2.1 "1. Ab" (by rfl) (by rfl)
  · exact c8_strip_charset_semantics.2.2 ["2. b", "1. a"]
      [(2, "2. b"), (1, "1. a")] (by rfl)

/-- C9: when the skeleton call and every expansion call succeed but some
expansion response, after cleaning, has no parseable integer before its first
`'.'` (so `int(s.split(".")[0])` raises `ValueError`), the reassembly raises,
the exception is caught, and the parallel run returns `None` — a fully
expanded answer set still yields a failed run purely because of response
formatting. -/
theorem c9_unparsable_label_aborts_run (tc : String → String → Nat)
    (sync : String → Except Unit String)
    (async : Nat → String → Except Unit String) (t1 t2 : ℚ)
    (prompt model sr : String) (responses : List String) (r : String)
    (hs : sync (get_skeleton_template prompt) = Except.ok sr)
    (hg : parallel_coroutine async (pySplitLines sr) prompt
      (get_skeleton_template prompt) = Except.ok responses)
    (hr : r ∈ responses) (hk : sortKey (cleanResponse r) = none) :
    run_parallel tc sync async t1 t2 prompt model = Except.ok none := by
  simp only [run_parallel, hs, hg,
    mergeResponses_none_of_bad responses r hr hk]

/-- C9 witness: a single successful expansion whose text `"hello"` cleans to
`"h"` and has no integer label, so the run yields `None`. -/
theorem c9_unparsable_witness :
    sortKey (cleanResponse "hello") = none ∧
    run_parallel (fun _ s => s.length) (fun _ => Except.ok "1. A")
      (fun _ _ => Except.ok "hello") 0 1 "Q" "m" = Except.ok none := by
  refine ⟨by rfl, ?_⟩
  exact c9_unparsable_label_aborts_run (fun _ s => s.length) _ _ 0 1 "Q" "m"
    "1. A" ["hello"] "hello" rfl (by rfl) (by simp) (by rfl)

/-- C10: the caller-supplied `tokens_per_second` argument never influences
the constructed `Result` (the construction with any supplied value equals the
construction with `None`), and every `Result` that is ever created carries
`tokens_per_second` equal to the token count of its `model_response` divided
by its `time_seconds`, as recomputed by `__post_init__`. -/
theorem c10_tps_always_recomputed (tc : String → String → Nat)
    (p resp m : String) (t : ℚ) (ct : CallType) (tps0 : Option ℚ) :
    mkResult tc p resp m t ct tps0 = mkResult tc p resp m t ct none ∧
    ∀ r : Result, mkResult tc p resp m t ct tps0 = some r →
      r.tokens_per_second = (tc m resp : ℚ) / r.time_seconds := by
  constructor
  · rfl
  · intro r h
    unfold mkResult calculate_tokens_per_second at h
    by_cases ht : t = 0
    · simp [ht] at h
    · simp [ht] at h
      subst h
      rfl

/-- C10 witness: a caller-supplied value of 999 is discarded and the field is
recomputed to 50. -/
theorem c10_recomputed_witness :
    mkResult (fun _ _ => 100) "p" "x" "m" 2 CallType.NORMAL (some 999)
      = mkResult (fun _ _ => 100) "p" "x" "m" 2 CallType.NORMAL none ∧
    mkResult (fun _ _ => 100) "p" "x" "m" 2 CallType.NORMAL (some 999)
      = some ⟨"p", "x", "m", 2, CallType.NORMAL, 50⟩ ∧
    (⟨"p", "x", "m", 2, CallType.NORMAL, 50⟩ : Result).tokens_per_second
      = ((100 : Nat) : ℚ) / (⟨"p", "x", "m", 2, CallType.NORMAL, 50⟩ : Result).time_seconds := by
  refine ⟨(c10_tps_always_recomputed (fun _ _ => 100) "p" "x" "m" 2
    CallType.NORMAL (some 999)).1, by decide, ?_⟩
  exact (c10_tps_always_recomputed (fun _ _ => 100) "p" "x" "m" 2
    CallType.NORMAL (some 999)).2 ⟨"p", "x", "m", 2, CallType.NORMAL, 50⟩
    (by decide)
